import Mathlib

/-!
Shallow embedding of `src/stream6.py` (CoinGlass API client, normalizer,
instrument resolver and `main`'s summary extraction).

Modelling conventions:
* JSON numeric values are `Rat` (`Val`); a raw provider record is a flat
  association list `RawRecord`.
* pandas timestamps are modelled by their integer value: an event-stamped
  timestamp (`pd.to_datetime(_, unit="ms")`) is its nanosecond value, a
  calendar date (`.dt.date`) is its day number since the epoch (floor
  division, matching pandas truncation).
* The HTTP layer is modelled by a transport oracle mapping (endpoint,
  headers, query params) to an `HttpResponse`, whose `body` is the parsed
  JSON payload (`none` when the body is not decodable JSON).
* Python exceptions become `Except ReqError`; `requests`'
  `raise_for_status` raises exactly for statuses in `[400, 600)`.
* Methods of `CoinGlassAPI` are state-passing: they return their result
  together with the (unmodified) client record.
-/

namespace Stream6

/-- JSON numeric values. -/
abbrev Val := Rat

/-- A raw provider record: a flat JSON object mapping field names to values. -/
abbrev RawRecord := List (String × Val)

/-- The `data` field of an indicator endpoint: an array of flat records. -/
abbrev RawData := List RawRecord

/-- Python's `str.upper()` (ASCII case mapping), written by structural
recursion over the character list so that concrete instances evaluate. -/
def upper (s : String) : String := String.mk (s.data.map Char.toUpper)

/-- Field lookup in a raw record (first binding wins, as in a JSON object). -/
def lookupF (r : RawRecord) (k : String) : Option Val :=
  List.lookup k r

/-- `pd.to_datetime(t, unit="ms")` on an integer: the timestamp's nanosecond value. -/
def to_datetime_ms (t : Int) : Int := t * 1000000

/-- `pd.to_datetime(t, unit="ms").dt.date` on an integer: day number since epoch. -/
def to_date_ms (t : Int) : Int := Int.fdiv t 86400000

/-- `pd.to_datetime(t, unit="s").dt.date` on an integer: day number since epoch. -/
def to_date_s (t : Int) : Int := Int.fdiv t 86400

/-- Modelled from the spec: re-encoding an event-stamped timestamp (nanosecond
value) back to epoch-milliseconds; the source has no encoder, the spec's
round-trip property supplies this abstract inverse. -/
def encode_ns_to_ms (ns : Int) : Int := Int.fdiv ns 1000000

/-- Modelled from the spec: re-encoding a calendar date (day number) back to
epoch-milliseconds (midnight of that day); abstract inverse for the spec's
round-trip property. -/
def encode_date_to_ms (d : Int) : Int := d * 86400000

/-- One point of a normalized time series: the decoded time column together
with the record's columns. -/
structure TSPoint where
  time : Int
  fields : RawRecord
deriving DecidableEq, Repr

/-- Descending order on decoded time, the sort key of
`df.sort_values(timeField, ascending=False)`. -/
def tsDesc (p q : TSPoint) : Prop := q.time ≤ p.time

instance : DecidableRel tsDesc := fun p q =>
  inferInstanceAs (Decidable (q.time ≤ p.time))

instance : IsTotal TSPoint tsDesc :=
  ⟨fun p q => le_total q.time p.time⟩

instance : IsTrans TSPoint tsDesc :=
  ⟨fun _ _ _ h1 h2 => le_trans h2 h1⟩

/-- Decode the time column of every record (`df[timeField] = pd.to_datetime(...)`);
fails when a record lacks the time field (pandas `KeyError`). -/
def decodeRows (timeField : String) (dec : Int → Int) : RawData → Option (List TSPoint)
  | [] => some []
  | r :: rs =>
    match lookupF r timeField, decodeRows timeField dec rs with
    | some v, some ps => some ({ time := dec ⌊v⌋, fields := r } :: ps)
    | _, _ => none

/-- Normalization done by `fetch_ohlc_oi_data`: decode `t` from
epoch-milliseconds, truncate to date, sort descending. -/
def oi_normalize (data : RawData) : Option (List TSPoint) :=
  (decodeRows "t" to_date_ms data).map (List.insertionSort tsDesc)

/-- Normalization shared by the three ratio endpoints: decode `createTime`
from epoch-milliseconds (full timestamp), sort descending. -/
def ratio_normalize (data : RawData) : Option (List TSPoint) :=
  (decodeRows "createTime" to_datetime_ms data).map (List.insertionSort tsDesc)

/-- One point of the price-OHLC series after the column selection
`pd.DataFrame(data, columns=["t","o","h","l","c","v"])`: the decoded date
plus the five value columns in fixed order (`none` models a NaN cell). -/
structure PricePoint where
  t : Int
  fields : List (String × Option Val)
deriving DecidableEq, Repr

/-- The five value columns enforced for the price-OHLC metric. -/
def priceValueCols : List String := ["o", "h", "l", "c", "v"]

/-- `pd.DataFrame(data, columns=cols)` on one record: keep exactly `cols`,
in order, missing fields becoming NaN. -/
def selectColumns (cols : List String) (r : RawRecord) : List (String × Option Val) :=
  cols.map fun k => (k, lookupF r k)

/-- Descending order on the decoded date column of the price series. -/
def priceDesc (p q : PricePoint) : Prop := q.t ≤ p.t

instance : DecidableRel priceDesc := fun p q =>
  inferInstanceAs (Decidable (q.t ≤ p.t))

instance : IsTotal PricePoint priceDesc :=
  ⟨fun p q => le_total q.t p.t⟩

instance : IsTrans PricePoint priceDesc :=
  ⟨fun _ _ _ h1 h2 => le_trans h2 h1⟩

/-- Column selection and time decoding of `fetch_price_ohlc_data`: exactly
six named columns, `t` decoded from epoch-seconds and truncated to date. -/
def decodePriceRows : RawData → Option (List PricePoint)
  | [] => some []
  | r :: rs =>
    match lookupF r "t", decodePriceRows rs with
    | some v, some ps =>
      some ({ t := to_date_s ⌊v⌋, fields := selectColumns priceValueCols r } :: ps)
    | _, _ => none

/-- Full normalization of `fetch_price_ohlc_data`: select columns, decode
`t`, sort descending by date. -/
def price_normalize (data : RawData) : Option (List PricePoint) :=
  (decodePriceRows data).map (List.insertionSort priceDesc)

/-! ## HTTP transport -/

/-- A query-parameter value: the Python dicts mix strings and integers. -/
inductive QueryVal where
  | str (s : String)
  | nat (n : Nat)
deriving DecidableEq, Repr

abbrev Params := List (String × QueryVal)

/-- An HTTP response as seen by the client: status, reason phrase, and the
parsed JSON body (`none` when the body fails to decode as JSON). -/
structure HttpResponse (α : Type) where
  status : Nat
  reason : String
  body : Option α

/-- Errors surfaced by the client: an HTTP error carrying status and reason
(`requests.exceptions.HTTPError`), or a decode/contract failure. -/
inductive ReqError where
  | http (status : Nat) (reason : String)
  | decode
deriving DecidableEq, Repr

/-- The transport oracle: maps (endpoint, headers, query params) to the
HTTP response the server produces. -/
abbrev Transport (α : Type) := String → List (String × String) → Params → HttpResponse α

/-- The client object: fields set by `__init__` and never reassigned. -/
structure CoinGlassAPI where
  api_key : String
  base_url : String
  headers : List (String × String)
deriving DecidableEq, Repr

/-- `CoinGlassAPI._get_headers`. -/
def _get_headers (api_key : String) : List (String × String) :=
  [("accept", "application/json"), ("coinglassSecret", api_key)]

/-- `CoinGlassAPI.__init__`. -/
def CoinGlassAPI.init (api_key : String) : CoinGlassAPI :=
  { api_key := api_key
    base_url := "https://open-api.coinglass.com"
    headers := _get_headers api_key }

/-- The best-effort diagnostic printed on the error path: decode the error
body if possible, otherwise a generic note. Diagnostics only; never alters
control flow. -/
def error_diagnostic (body : Option α) : String :=
  match body with
  | some _ => "Error details"
  | none => "No detailed error message available from API."

/-- `CoinGlassAPI._request`: `raise_for_status` raises an `HTTPError` with
the status and reason for statuses in `[400, 600)` (after attempting the
best-effort error-body diagnostic, then re-raising the original error);
otherwise the parsed JSON body is returned, a non-JSON body raising a
decode error. -/
def CoinGlassAPI._request (resp : HttpResponse α) : Except ReqError α :=
  if 400 ≤ resp.status ∧ resp.status < 600 then
    let _note := error_diagnostic resp.body
    Except.error (ReqError.http resp.status resp.reason)
  else
    match resp.body with
    | some payload => Except.ok payload
    | none => Except.error ReqError.decode

/-! ## Instrument resolver -/

/-- An instrument descriptor of the catalog endpoint. -/
structure Instrument where
  baseAsset : String
  quoteAsset : String
  instrumentId : String
deriving DecidableEq, Repr

/-- The catalog payload's `data`: a mapping from exchange name to a list of
instrument descriptors (iterated in insertion order, like a Python dict). -/
abbrev Catalog := List (String × List Instrument)

/-- A resolved (exchange, instrument) row of `get_available_pairs`. -/
structure InstrumentRef where
  exchange : String
  instrumentId : String
deriving DecidableEq, Repr

/-- The filtering loop of `CoinGlassAPI.get_available_pairs`: include a
descriptor iff `coin.upper()` is its uppercased base or quote asset. -/
def available_pairs (coin : String) (data : Catalog) : List InstrumentRef :=
  (data.map fun exInstruments =>
    (exInstruments.2.filter fun item =>
        upper coin == upper item.baseAsset || upper coin == upper item.quoteAsset).map
      fun item => { exchange := exInstruments.1, instrumentId := item.instrumentId }).flatten

/-! ## Endpoint client -/

/-- Wrapper around the catalog payload (`{"data": ...}`). -/
structure CatalogPayload where
  data : Catalog

/-- Wrapper around an indicator payload (`{"data": ...}`). -/
structure IndicatorPayload where
  data : RawData

def instrument_endpoint : String := "/public/v2/instrument"
def oi_endpoint : String := "/public/v2/indicator/open_interest_ohlc"
def price_endpoint : String := "/public/v2/indicator/price_ohlc"
def ratio_endpoint : String := "/public/v2/indicator/top_long_short_account_ratio"
def position_endpoint : String := "/public/v2/indicator/top_long_short_position_ratio"
def loser_endpoint : String := "/public/v2/indicator/long_short_accounts"

/-- Query parameters of `get_available_pairs`. -/
def instrument_params (coin : String) : Params :=
  [("symbol", QueryVal.str coin)]

/-- Query parameters of `fetch_ohlc_oi_data`: interval hard-coded to the
string `"h24"`, limit hard-coded to `50`. -/
def oi_params (exchange pair : String) : Params :=
  [("ex", QueryVal.str exchange), ("pair", QueryVal.str pair),
   ("interval", QueryVal.str "h24"), ("limit", QueryVal.nat 50)]

/-- Query parameters shared by the other four indicator methods, whose
signatures expose `interval` and `limit` as tuning knobs. -/
def indicator_params (exchange pair interval : String) (limit : Nat) : Params :=
  [("ex", QueryVal.str exchange), ("pair", QueryVal.str pair),
   ("interval", QueryVal.str interval), ("limit", QueryVal.nat limit)]

/-- `CoinGlassAPI.get_available_pairs`: call the transport, extract `data`,
filter client-side; transport errors propagate. -/
def CoinGlassAPI.get_available_pairs (api : CoinGlassAPI)
    (transport : Transport CatalogPayload) (coin : String) :
    Except ReqError (List InstrumentRef) × CoinGlassAPI :=
  (match CoinGlassAPI._request (transport instrument_endpoint api.headers (instrument_params coin)) with
   | Except.error e => Except.error e
   | Except.ok payload => Except.ok (available_pairs coin payload.data),
   api)

/-- `CoinGlassAPI.fetch_ohlc_oi_data`: fixed params, transport, normalize;
HTTP errors re-raised unchanged after a diagnostic. -/
def CoinGlassAPI.fetch_ohlc_oi_data (api : CoinGlassAPI)
    (transport : Transport IndicatorPayload) (exchange pair : String) :
    Except ReqError (List TSPoint) × CoinGlassAPI :=
  (match CoinGlassAPI._request (transport oi_endpoint api.headers (oi_params exchange pair)) with
   | Except.error e => Except.error e
   | Except.ok payload =>
     match oi_normalize payload.data with
     | some df => Except.ok df
     | none => Except.error ReqError.decode,
   api)

/-- `CoinGlassAPI.fetch_price_ohlc_data`. -/
def CoinGlassAPI.fetch_price_ohlc_data (api : CoinGlassAPI)
    (transport : Transport IndicatorPayload) (exchange pair interval : String) (limit : Nat) :
    Except ReqError (List PricePoint) × CoinGlassAPI :=
  (match CoinGlassAPI._request
      (transport price_endpoint api.headers (indicator_params exchange pair interval limit)) with
   | Except.error e => Except.error e
   | Except.ok payload =>
     match price_normalize payload.data with
     | some df => Except.ok df
     | none => Except.error ReqError.decode,
   api)

/-- `CoinGlassAPI.fetch_top_long_short_ratio`. -/
def CoinGlassAPI.fetch_top_long_short_ratio (api : CoinGlassAPI)
    (transport : Transport IndicatorPayload) (exchange pair interval : String) (limit : Nat) :
    Except ReqError (List TSPoint) × CoinGlassAPI :=
  (match CoinGlassAPI._request
      (transport ratio_endpoint api.headers (indicator_params exchange pair interval limit)) with
   | Except.error e => Except.error e
   | Except.ok payload =>
     match ratio_normalize payload.data with
     | some df => Except.ok df
     | none => Except.error ReqError.decode,
   api)

/-- `CoinGlassAPI.fetch_top_long_short_position_ratio`. -/
def CoinGlassAPI.fetch_top_long_short_position_ratio (api : CoinGlassAPI)
    (transport : Transport IndicatorPayload) (exchange pair interval : String) (limit : Nat) :
    Except ReqError (List TSPoint) × CoinGlassAPI :=
  (match CoinGlassAPI._request
      (transport position_endpoint api.headers (indicator_params exchange pair interval limit)) with
   | Except.error e => Except.error e
   | Except.ok payload =>
     match ratio_normalize payload.data with
     | some df => Except.ok df
     | none => Except.error ReqError.decode,
   api)

/-- `CoinGlassAPI.fetch_top_long_short_loser`. -/
def CoinGlassAPI.fetch_top_long_short_loser (api : CoinGlassAPI)
    (transport : Transport IndicatorPayload) (exchange pair interval : String) (limit : Nat) :
    Except ReqError (List TSPoint) × CoinGlassAPI :=
  (match CoinGlassAPI._request
      (transport loser_endpoint api.headers (indicator_params exchange pair interval limit)) with
   | Except.error e => Except.error e
   | Except.ok payload =>
     match ratio_normalize payload.data with
     | some df => Except.ok df
     | none => Except.error ReqError.decode,
   api)

/-! ## Aggregate summary (`main`) -/

/-- `ohlc_oi_data.iloc[-1]["c"]`: the open-interest "latest value". -/
def latest_oi (df : List TSPoint) : Option Val :=
  df.getLast?.bind fun p => lookupF p.fields "c"

/-- `price_ohlc_data.iloc[0]["c"]`: the price "latest value" (a `none` cell
models NaN). -/
def latest_close (df : List PricePoint) : Option Val :=
  df.head?.bind fun p => (List.lookup "c" p.fields).bind id

/-- `long_short_data.iloc[0]["longRatio"]`. -/
def latest_long_ratio (df : List TSPoint) : Option Val :=
  df.head?.bind fun p => lookupF p.fields "longRatio"

/-- `long_short_data.iloc[0]["shortRatio"]`. -/
def latest_short_ratio (df : List TSPoint) : Option Val :=
  df.head?.bind fun p => lookupF p.fields "shortRatio"

/-- `top_traders_data.iloc[0]["longRatio"]`. -/
def latest_long_position_ratio (df : List TSPoint) : Option Val :=
  df.head?.bind fun p => lookupF p.fields "longRatio"

/-- `top_traders_data.iloc[0]["shortRatio"]`. -/
def latest_short_position_ratio (df : List TSPoint) : Option Val :=
  df.head?.bind fun p => lookupF p.fields "shortRatio"

/-- `L_data.iloc[-1]["longRatio"]`: the all-accounts ("losers") summary. -/
def latest_long_ratio_all_accounts (df : List TSPoint) : Option Val :=
  df.getLast?.bind fun p => lookupF p.fields "longRatio"

/-- `L_data.iloc[-1]["shortRatio"]`. -/
def latest_short_ratio_all_accounts (df : List TSPoint) : Option Val :=
  df.getLast?.bind fun p => lookupF p.fields "shortRatio"

/-! ## Helper lemmas -/

/-- Membership characterization of the resolver's filtering loop. -/
theorem mem_available_pairs {coin : String} {data : Catalog} {ref : InstrumentRef} :
    ref ∈ available_pairs coin data ↔
      ∃ instruments, (ref.exchange, instruments) ∈ data ∧
        ∃ item ∈ instruments, item.instrumentId = ref.instrumentId ∧
          (upper coin = upper item.baseAsset ∨ upper coin = upper item.quoteAsset) := by
  constructor
  · intro h
    unfold available_pairs at h
    rw [List.mem_flatten] at h
    obtain ⟨l, hl, href⟩ := h
    rw [List.mem_map] at hl
    obtain ⟨a, ha, rfl⟩ := hl
    rw [List.mem_map] at href
    obtain ⟨item, hitem, heq⟩ := href
    rw [List.mem_filter] at hitem
    obtain ⟨hmem, hp⟩ := hitem
    subst heq
    refine ⟨a.2, ?_, item, hmem, rfl, ?_⟩
    · simpa using ha
    · simpa [Bool.or_eq_true, beq_iff_eq] using hp
  · rintro ⟨instruments, hmem, item, hitem, hid, hmatch⟩
    unfold available_pairs
    rw [List.mem_flatten]
    refine ⟨_, List.mem_map_of_mem _ hmem, ?_⟩
    rw [List.mem_map]
    refine ⟨item, ?_, ?_⟩
    · rw [List.mem_filter]
      refine ⟨hitem, ?_⟩
      simpa [Bool.or_eq_true, beq_iff_eq] using hmatch
    · cases ref
      cases hid
      rfl

/-- Everything `decodeRows` accepts comes out sorted descending after the
insertion sort. -/
theorem oi_normalize_sorted {data : RawData} {l : List TSPoint}
    (h : oi_normalize data = some l) : l.Sorted tsDesc := by
  unfold oi_normalize at h
  cases hd : decodeRows "t" to_date_ms data with
  | none => rw [hd] at h; exact absurd h (by simp)
  | some m =>
    rw [hd] at h
    simp only [Option.map_some'] at h
    obtain rfl := Option.some.inj h
    exact List.sorted_insertionSort tsDesc m

theorem ratio_normalize_sorted {data : RawData} {l : List TSPoint}
    (h : ratio_normalize data = some l) : l.Sorted tsDesc := by
  unfold ratio_normalize at h
  cases hd : decodeRows "createTime" to_datetime_ms data with
  | none => rw [hd] at h; exact absurd h (by simp)
  | some m =>
    rw [hd] at h
    simp only [Option.map_some'] at h
    obtain rfl := Option.some.inj h
    exact List.sorted_insertionSort tsDesc m

theorem price_normalize_sorted {data : RawData} {l : List PricePoint}
    (h : price_normalize data = some l) : l.Sorted priceDesc := by
  unfold price_normalize at h
  cases hd : decodePriceRows data with
  | none => rw [hd] at h; exact absurd h (by simp)
  | some m =>
    rw [hd] at h
    simp only [Option.map_some'] at h
    obtain rfl := Option.some.inj h
    exact List.sorted_insertionSort priceDesc m

/-- `pd.DataFrame(_, columns=cols)` produces exactly the requested columns
in the requested order. -/
theorem selectColumns_keys (cols : List String) (r : RawRecord) :
    (selectColumns cols r).map Prod.fst = cols := by
  unfold selectColumns
  induction cols with
  | nil => rfl
  | cons k ks ih => simpa using ih

/-- Every decoded price row originates from a raw record: its date is the
epoch-second `t` field truncated, its other columns are the selected five. -/
theorem decodePriceRows_mem {data : RawData} {m : List PricePoint}
    (h : decodePriceRows data = some m) :
    ∀ q ∈ m, ∃ r ∈ data, ∃ v, lookupF r "t" = some v ∧ q.t = to_date_s ⌊v⌋ ∧
      q.fields = selectColumns priceValueCols r := by
  induction data generalizing m with
  | nil =>
    simp only [decodePriceRows] at h
    obtain rfl := Option.some.inj h
    simp
  | cons r rs ih =>
    simp only [decodePriceRows] at h
    cases hv : lookupF r "t" with
    | none => rw [hv] at h; exact absurd h (by simp)
    | some v =>
      rw [hv] at h
      cases hrs : decodePriceRows rs with
      | none => rw [hrs] at h; exact absurd h (by simp)
      | some ps =>
        rw [hrs] at h
        obtain rfl := Option.some.inj h
        intro q hq
        rcases List.mem_cons.mp hq with hq | hq
        · exact ⟨r, List.mem_cons_self r rs, v, hv, by rw [hq], by rw [hq]⟩
        · obtain ⟨r', hr', v', hv', ht', hf'⟩ := ih hrs q hq
          exact ⟨r', List.mem_cons_of_mem r hr', v', hv', ht', hf'⟩

/-! ## Claim theorems -/

/-- Claim C1: for every instrument-catalog payload and coin symbol, the
resolver includes an instrument iff the uppercased symbol equals the
uppercased `baseAsset` or `quoteAsset` of that descriptor; on the two-exchange
BTC/ETH catalog with symbol `"BTC"` the result is exactly
`[{exchange := "Binance", instrumentId := "BTCUSDT"}]`. -/
theorem C1_resolver_selection :
    (∀ (coin : String) (data : Catalog) (ref : InstrumentRef),
        ref ∈ available_pairs coin data ↔
          ∃ instruments, (ref.exchange, instruments) ∈ data ∧
            ∃ item ∈ instruments, item.instrumentId = ref.instrumentId ∧
              (upper coin = upper item.baseAsset ∨ upper coin = upper item.quoteAsset))
    ∧ available_pairs "BTC"
        [("Binance", [{ baseAsset := "BTC", quoteAsset := "USDT", instrumentId := "BTCUSDT" }]),
         ("OKX", [{ baseAsset := "ETH", quoteAsset := "USDT", instrumentId := "ETHUSDT" }])] =
      [{ exchange := "Binance", instrumentId := "BTCUSDT" }] :=
  ⟨fun _ _ _ => mem_available_pairs, by decide⟩

/-- Claim C3: `main`'s "latest value" metrics are read from index 0 of the
descending-sorted series for price, top-account ratio and top-position
ratio, but from the last index for open interest and the all-accounts
("losers") metric. -/
theorem C3_latest_value_indexing :
    ∀ (dfOI : List TSPoint) (dfP : List PricePoint) (dfA dfT dfL : List TSPoint),
      latest_oi dfOI = (dfOI[dfOI.length - 1]?).bind (fun p => lookupF p.fields "c") ∧
      latest_close dfP = (dfP[0]?).bind (fun p => (List.lookup "c" p.fields).bind id) ∧
      latest_long_ratio dfA = (dfA[0]?).bind (fun p => lookupF p.fields "longRatio") ∧
      latest_short_ratio dfA = (dfA[0]?).bind (fun p => lookupF p.fields "shortRatio") ∧
      latest_long_position_ratio dfT = (dfT[0]?).bind (fun p => lookupF p.fields "longRatio") ∧
      latest_short_position_ratio dfT = (dfT[0]?).bind (fun p => lookupF p.fields "shortRatio") ∧
      latest_long_ratio_all_accounts dfL =
        (dfL[dfL.length - 1]?).bind (fun p => lookupF p.fields "longRatio") ∧
      latest_short_ratio_all_accounts dfL =
        (dfL[dfL.length - 1]?).bind (fun p => lookupF p.fields "shortRatio") := by
  intro dfOI dfP dfA dfT dfL
  refine ⟨?_, ?_, ?_, ?_, ?_, ?_, ?_, ?_⟩ <;>
    simp only [latest_oi, latest_close, latest_long_ratio, latest_short_ratio,
      latest_long_position_ratio, latest_short_position_ratio,
      latest_long_ratio_all_accounts, latest_short_ratio_all_accounts,
      List.getLast?_eq_getElem?, List.head?_eq_getElem?]

/-- Claim C4 (counterexample): the open-interest query parameters do NOT
omit `limit` — they send `limit = 50` — and the interval value is the
string `"h24"`, not `"24h"`. -/
theorem C4_counterexample :
    List.lookup "limit" (oi_params "Binance" "BTCUSDT") = some (QueryVal.nat 50) ∧
    List.lookup "interval" (oi_params "Binance" "BTCUSDT") = some (QueryVal.str "h24") ∧
    QueryVal.str "h24" ≠ QueryVal.str "24h" := by
  refine ⟨rfl, rfl, by decide⟩

/-- Claim C4 (amended): for every call to the open-interest fetch method the
query parameters fix the interval at the string `"h24"` and send a fixed
`limit` of 50 (the method signature, unlike the other indicator metrics,
exposes no interval or limit tuning knobs). -/
theorem C4_oi_params_fixed :
    ∀ (exchange pair : String),
      List.lookup "interval" (oi_params exchange pair) = some (QueryVal.str "h24") ∧
      List.lookup "limit" (oi_params exchange pair) = some (QueryVal.nat 50) ∧
      List.lookup "ex" (oi_params exchange pair) = some (QueryVal.str exchange) ∧
      List.lookup "pair" (oi_params exchange pair) = some (QueryVal.str pair) ∧
      oi_params exchange pair =
        [("ex", QueryVal.str exchange), ("pair", QueryVal.str pair),
         ("interval", QueryVal.str "h24"), ("limit", QueryVal.nat 50)] :=
  fun _ _ => ⟨rfl, rfl, rfl, rfl, rfl⟩

/-- Claim C7: when no catalog descriptor matches the coin symbol, the
resolver returns an empty list and raises no error (a successful call
yields `Except.ok []`). -/
theorem C7_no_match_empty :
    (∀ (coin : String) (data : Catalog),
        (∀ exInstruments ∈ data, ∀ item ∈ exInstruments.2,
            upper coin ≠ upper item.baseAsset ∧ upper coin ≠ upper item.quoteAsset) →
          available_pairs coin data = [])
    ∧ ∀ (api : CoinGlassAPI) (data : Catalog) (coin : String),
        (∀ exInstruments ∈ data, ∀ item ∈ exInstruments.2,
            upper coin ≠ upper item.baseAsset ∧ upper coin ≠ upper item.quoteAsset) →
          (api.get_available_pairs
              (fun _ _ _ => { status := 200, reason := "OK", body := some { data := data } })
              coin).1 =
            Except.ok [] := by
  have key : ∀ (coin : String) (data : Catalog),
      (∀ exInstruments ∈ data, ∀ item ∈ exInstruments.2,
          upper coin ≠ upper item.baseAsset ∧ upper coin ≠ upper item.quoteAsset) →
        available_pairs coin data = [] := by
    intro coin data hno
    rw [List.eq_nil_iff_forall_not_mem]
    intro ref h
    rw [mem_available_pairs] at h
    obtain ⟨instruments, hmem, item, hitem, -, hmatch⟩ := h
    obtain ⟨hb, hq⟩ := hno (ref.exchange, instruments) hmem item hitem
    rcases hmatch with hmatch | hmatch
    · exact hb hmatch
    · exact hq hmatch
  refine ⟨key, fun api data coin hno => ?_⟩
  simp [CoinGlassAPI.get_available_pairs, CoinGlassAPI._request, key coin data hno]

/-- Claim C7 witness: the nonsense symbol `"ZZZZ"` resolves to the empty
list on the BTC/ETH catalog, and the client call returns `Except.ok []`. -/
theorem C7_no_match_empty_witness :
    available_pairs "ZZZZ"
        [("Binance", [{ baseAsset := "BTC", quoteAsset := "USDT", instrumentId := "BTCUSDT" }]),
         ("OKX", [{ baseAsset := "ETH", quoteAsset := "USDT", instrumentId := "ETHUSDT" }])] = []
    ∧ ((CoinGlassAPI.init "key").get_available_pairs
        (fun _ _ _ =>
          { status := 200, reason := "OK"
            body := some
              { data :=
                  [("Binance", [{ baseAsset := "BTC", quoteAsset := "USDT", instrumentId := "BTCUSDT" }]),
                   ("OKX", [{ baseAsset := "ETH", quoteAsset := "USDT", instrumentId := "ETHUSDT" }])] } })
        "ZZZZ").1 = Except.ok [] :=
  ⟨C7_no_match_empty.1 "ZZZZ" _ (by decide),
   C7_no_match_empty.2 (CoinGlassAPI.init "key") _ "ZZZZ" (by decide)⟩

/-- Claim C9: decoding an epoch-millisecond integer timestamp with the
event-stamped normalization and re-encoding to epoch-milliseconds is the
identity; for the daily metrics the round-trip holds exactly up to the
forced calendar-date truncation (the re-encoded value is `t` minus its
remainder within the day, and re-decoding is stable). -/
theorem C9_timestamp_roundtrip :
    (∀ t : Int, encode_ns_to_ms (to_datetime_ms t) = t) ∧
    (∀ t : Int, encode_date_to_ms (to_date_ms t) = t - Int.fmod t 86400000) ∧
    (∀ t : Int, to_date_ms (encode_date_to_ms (to_date_ms t)) = to_date_ms t) := by
  refine ⟨fun t => ?_, fun t => ?_, fun t => ?_⟩
  · simp only [to_datetime_ms, encode_ns_to_ms]
    exact Int.mul_fdiv_cancel t (by decide)
  · have h := Int.fmod_add_fdiv t 86400000
    simp only [encode_date_to_ms, to_date_ms]
    linarith
  · simp only [encode_date_to_ms, to_date_ms]
    exact Int.mul_fdiv_cancel _ (by decide)

/-- Claim C10: every client method leaves the client record unchanged —
the state component returned by each call is the input client, whatever
the transport outcome. -/
theorem C10_client_state_unchanged :
    ∀ (api : CoinGlassAPI) (tc : Transport CatalogPayload) (ti : Transport IndicatorPayload)
      (coin exchange pair interval : String) (limit : Nat),
      (api.get_available_pairs tc coin).2 = api ∧
      (api.fetch_ohlc_oi_data ti exchange pair).2 = api ∧
      (api.fetch_price_ohlc_data ti exchange pair interval limit).2 = api ∧
      (api.fetch_top_long_short_ratio ti exchange pair interval limit).2 = api ∧
      (api.fetch_top_long_short_position_ratio ti exchange pair interval limit).2 = api ∧
      (api.fetch_top_long_short_loser ti exchange pair interval limit).2 = api :=
  fun _ _ _ _ _ _ _ _ => ⟨rfl, rfl, rfl, rfl, rfl, rfl⟩

/-- Claim C2: every time-series record returned by any of the five fetch
methods is sorted by its decoded time field in non-increasing (descending)
order. -/
theorem C2_fetch_sorted_descending :
    (∀ (api : CoinGlassAPI) (transport : Transport IndicatorPayload) (exchange pair : String)
        (l : List TSPoint),
        (api.fetch_ohlc_oi_data transport exchange pair).1 = Except.ok l → l.Sorted tsDesc) ∧
    (∀ (api : CoinGlassAPI) (transport : Transport IndicatorPayload)
        (exchange pair interval : String) (limit : Nat) (l : List PricePoint),
        (api.fetch_price_ohlc_data transport exchange pair interval limit).1 = Except.ok l →
          l.Sorted priceDesc) ∧
    (∀ (api : CoinGlassAPI) (transport : Transport IndicatorPayload)
        (exchange pair interval : String) (limit : Nat) (l : List TSPoint),
        (api.fetch_top_long_short_ratio transport exchange pair interval limit).1 = Except.ok l →
          l.Sorted tsDesc) ∧
    (∀ (api : CoinGlassAPI) (transport : Transport IndicatorPayload)
        (exchange pair interval : String) (limit : Nat) (l : List TSPoint),
        (api.fetch_top_long_short_position_ratio transport exchange pair interval limit).1 =
            Except.ok l →
          l.Sorted tsDesc) ∧
    (∀ (api : CoinGlassAPI) (transport : Transport IndicatorPayload)
        (exchange pair interval : String) (limit : Nat) (l : List TSPoint),
        (api.fetch_top_long_short_loser transport exchange pair interval limit).1 = Except.ok l →
          l.Sorted tsDesc) := by
  refine ⟨?_, ?_, ?_, ?_, ?_⟩
  · intro api transport exchange pair l h
    simp only [CoinGlassAPI.fetch_ohlc_oi_data] at h
    cases hr : CoinGlassAPI._request (transport oi_endpoint api.headers (oi_params exchange pair)) with
    | error e => rw [hr] at h; simp at h
    | ok payload =>
      rw [hr] at h
      simp only [] at h
      cases hn : oi_normalize payload.data with
      | none => rw [hn] at h; simp at h
      | some df =>
        rw [hn] at h
        simp only [Except.ok.injEq] at h
        subst h
        exact oi_normalize_sorted hn
  · intro api transport exchange pair interval limit l h
    simp only [CoinGlassAPI.fetch_price_ohlc_data] at h
    cases hr : CoinGlassAPI._request
        (transport price_endpoint api.headers (indicator_params exchange pair interval limit)) with
    | error e => rw [hr] at h; simp at h
    | ok payload =>
      rw [hr] at h
      simp only [] at h
      cases hn : price_normalize payload.data with
      | none => rw [hn] at h; simp at h
      | some df =>
        rw [hn] at h
        simp only [Except.ok.injEq] at h
        subst h
        exact price_normalize_sorted hn
  · intro api transport exchange pair interval limit l h
    simp only [CoinGlassAPI.fetch_top_long_short_ratio] at h
    cases hr : CoinGlassAPI._request
        (transport ratio_endpoint api.headers (indicator_params exchange pair interval limit)) with
    | error e => rw [hr] at h; simp at h
    | ok payload =>
      rw [hr] at h
      simp only [] at h
      cases hn : ratio_normalize payload.data with
      | none => rw [hn] at h; simp at h
      | some df =>
        rw [hn] at h
        simp only [Except.ok.injEq] at h
        subst h
        exact ratio_normalize_sorted hn
  · intro api transport exchange pair interval limit l h
    simp only [CoinGlassAPI.fetch_top_long_short_position_ratio] at h
    cases hr : CoinGlassAPI._request
        (transport position_endpoint api.headers (indicator_params exchange pair interval limit)) with
    | error e => rw [hr] at h; simp at h
    | ok payload =>
      rw [hr] at h
      simp only [] at h
      cases hn : ratio_normalize payload.data with
      | none => rw [hn] at h; simp at h
      | some df =>
        rw [hn] at h
        simp only [Except.ok.injEq] at h
        subst h
        exact ratio_normalize_sorted hn
  · intro api transport exchange pair interval limit l h
    simp only [CoinGlassAPI.fetch_top_long_short_loser] at h
    cases hr : CoinGlassAPI._request
        (transport loser_endpoint api.headers (indicator_params exchange pair interval limit)) with
    | error e => rw [hr] at h; simp at h
    | ok payload =>
      rw [hr] at h
      simp only [] at h
      cases hn : ratio_normalize payload.data with
      | none => rw [hn] at h; simp at h
      | some df =>
        rw [hn] at h
        simp only [Except.ok.injEq] at h
        subst h
        exact ratio_normalize_sorted hn

/-- Claim C2 witness: concrete fetches (open interest, price, top-account
ratio) on two-point raw arrays produce descending-sorted records. -/
theorem C2_fetch_sorted_descending_witness :
    List.Sorted tsDesc
      [{ time := 2314, fields := [("t", (200000000000 : Val)), ("c", 5)] },
       { time := 0, fields := [("t", (1000 : Val)), ("c", 3)] }] ∧
    List.Sorted priceDesc
      [{ t := 2, fields := [("o", some (5 : Val)), ("h", some 6), ("l", some 5),
                            ("c", some 7), ("v", some 8)] },
       { t := 0, fields := [("o", some (1 : Val)), ("h", some 2), ("l", some 1),
                            ("c", some 3), ("v", some 4)] }] ∧
    List.Sorted tsDesc
      [{ time := 2000000000, fields := [("createTime", (2000 : Val)), ("shortRatio", 40)] },
       { time := 1000000000, fields := [("createTime", (1000 : Val)), ("longRatio", 60)] }] :=
  ⟨C2_fetch_sorted_descending.1 (CoinGlassAPI.init "key")
      (fun _ _ _ => { status := 200, reason := "OK"
                      body := some { data := [[("t", 1000), ("c", 3)],
                                              [("t", 200000000000), ("c", 5)]] } })
      "Binance" "BTCUSDT" _ rfl,
   C2_fetch_sorted_descending.2.1 (CoinGlassAPI.init "key")
      (fun _ _ _ => { status := 200, reason := "OK"
                      body := some { data :=
                        [[("t", 1000), ("o", 1), ("h", 2), ("l", 1), ("c", 3), ("v", 4)],
                         [("t", 200000), ("o", 5), ("h", 6), ("l", 5), ("c", 7), ("v", 8)]] } })
      "Binance" "BTCUSDT" "h24" 50 _ rfl,
   C2_fetch_sorted_descending.2.2.1 (CoinGlassAPI.init "key")
      (fun _ _ _ => { status := 200, reason := "OK"
                      body := some { data := [[("createTime", 1000), ("longRatio", 60)],
                                              [("createTime", 2000), ("shortRatio", 40)]] } })
      "Binance" "BTCUSDT" "h24" 50 _ rfl⟩

/-- Claim C5: every point of a price-OHLC record carries exactly the five
value columns `o,h,l,c,v` (in fixed order, extra provider fields dropped)
next to the `t` column decoded from epoch-seconds and truncated to a
calendar date; each point originates from a raw record via that exact
selection. -/
theorem C5_price_six_columns :
    (∀ (data : RawData) (l : List PricePoint), price_normalize data = some l →
        ∀ q ∈ l, q.fields.map Prod.fst = priceValueCols ∧
          ∃ r ∈ data, ∃ v, lookupF r "t" = some v ∧ q.t = to_date_s ⌊v⌋ ∧
            q.fields = selectColumns priceValueCols r) ∧
    (∀ (api : CoinGlassAPI) (transport : Transport IndicatorPayload)
        (exchange pair interval : String) (limit : Nat) (l : List PricePoint),
        (api.fetch_price_ohlc_data transport exchange pair interval limit).1 = Except.ok l →
          ∀ q ∈ l, q.fields.map Prod.fst = priceValueCols) := by
  have part1 : ∀ (data : RawData) (l : List PricePoint), price_normalize data = some l →
      ∀ q ∈ l, q.fields.map Prod.fst = priceValueCols ∧
        ∃ r ∈ data, ∃ v, lookupF r "t" = some v ∧ q.t = to_date_s ⌊v⌋ ∧
          q.fields = selectColumns priceValueCols r := by
    intro data l h q hq
    unfold price_normalize at h
    cases hd : decodePriceRows data with
    | none => rw [hd] at h; exact absurd h (by simp)
    | some m =>
      rw [hd] at h
      simp only [Option.map_some'] at h
      obtain rfl := Option.some.inj h
      rw [List.mem_insertionSort] at hq
      obtain ⟨r, hr, v, hv, ht, hf⟩ := decodePriceRows_mem hd q hq
      exact ⟨by rw [hf]; exact selectColumns_keys _ _, r, hr, v, hv, ht, hf⟩
  refine ⟨part1, ?_⟩
  intro api transport exchange pair interval limit l h
  simp only [CoinGlassAPI.fetch_price_ohlc_data] at h
  cases hr : CoinGlassAPI._request
      (transport price_endpoint api.headers (indicator_params exchange pair interval limit)) with
  | error e => rw [hr] at h; simp at h
  | ok payload =>
    rw [hr] at h
    simp only [] at h
    cases hn : price_normalize payload.data with
    | none => rw [hn] at h; simp at h
    | some df =>
      rw [hn] at h
      simp only [Except.ok.injEq] at h
      subst h
      intro q hq
      exact (part1 payload.data _ hn q hq).1

/-- Claim C5 witness: a raw record with an extra provider field `junk` and
missing `h,l,c,v` normalizes to a point with exactly the five value
columns (NaN for the missing ones) and date `⌊2000 / 86400⌋ = 0`. -/
theorem C5_price_six_columns_witness :
    ({ t := 0, fields := [("o", some ((3 : Val) / 2)), ("h", none), ("l", none),
                          ("c", none), ("v", none)] } : PricePoint).fields.map Prod.fst =
        priceValueCols ∧
      ∃ r ∈ ([[("t", 2000), ("o", (3 : Val) / 2), ("junk", 7)]] : RawData), ∃ v,
        lookupF r "t" = some v ∧
          ({ t := 0, fields := [("o", some ((3 : Val) / 2)), ("h", none), ("l", none),
                                ("c", none), ("v", none)] } : PricePoint).t = to_date_s ⌊v⌋ ∧
          ({ t := 0, fields := [("o", some ((3 : Val) / 2)), ("h", none), ("l", none),
                                ("c", none), ("v", none)] } : PricePoint).fields =
            selectColumns priceValueCols r :=
  C5_price_six_columns.1 [[("t", 2000), ("o", (3 : Val) / 2), ("junk", 7)]] _ rfl _
    (List.mem_singleton.mpr rfl)

/-- Claim C6 (counterexample): an HTTP 304 response is not 2xx, yet the
transport raises no error — `raise_for_status` only raises for 4xx/5xx —
so the claim's "every non-2xx status raises" fails at status 304. -/
theorem C6_counterexample_not_modified :
    ¬(200 ≤ 304 ∧ 304 < 300) ∧
    CoinGlassAPI._request
        { status := 304, reason := "Not Modified", body := some ([] : RawData) } =
      Except.ok ([] : RawData) :=
  ⟨by decide, rfl⟩

/-- Claim C6 (amended): for every response with a 4xx or 5xx status, the
transport raises an error carrying that status and reason, every fetch
method and the resolver propagate it unchanged, and no record is
returned. -/
theorem C6_http_error_propagation :
    ∀ (s : Nat) (reason : String), 400 ≤ s → s < 600 →
      (∀ (b : Option IndicatorPayload) (api : CoinGlassAPI)
          (exchange pair interval : String) (limit : Nat),
        CoinGlassAPI._request { status := s, reason := reason, body := b } =
            (Except.error (ReqError.http s reason) : Except ReqError IndicatorPayload) ∧
        (api.fetch_ohlc_oi_data (fun _ _ _ => { status := s, reason := reason, body := b })
            exchange pair).1 = Except.error (ReqError.http s reason) ∧
        (api.fetch_price_ohlc_data (fun _ _ _ => { status := s, reason := reason, body := b })
            exchange pair interval limit).1 = Except.error (ReqError.http s reason) ∧
        (api.fetch_top_long_short_ratio (fun _ _ _ => { status := s, reason := reason, body := b })
            exchange pair interval limit).1 = Except.error (ReqError.http s reason) ∧
        (api.fetch_top_long_short_position_ratio
            (fun _ _ _ => { status := s, reason := reason, body := b })
            exchange pair interval limit).1 = Except.error (ReqError.http s reason) ∧
        (api.fetch_top_long_short_loser (fun _ _ _ => { status := s, reason := reason, body := b })
            exchange pair interval limit).1 = Except.error (ReqError.http s reason)) ∧
      (∀ (bc : Option CatalogPayload) (api : CoinGlassAPI) (coin : String),
        (api.get_available_pairs (fun _ _ _ => { status := s, reason := reason, body := bc })
            coin).1 = Except.error (ReqError.http s reason)) := by
  intro s reason h4 h6
  have hreq : ∀ {α : Type} (b : Option α),
      CoinGlassAPI._request { status := s, reason := reason, body := b } =
        (Except.error (ReqError.http s reason) : Except ReqError α) := by
    intro α b
    simp [CoinGlassAPI._request, h4, h6]
  refine ⟨fun b api exchange pair interval limit => ?_, fun bc api coin => ?_⟩
  · refine ⟨hreq b, ?_, ?_, ?_, ?_, ?_⟩ <;>
      simp only [CoinGlassAPI.fetch_ohlc_oi_data, CoinGlassAPI.fetch_price_ohlc_data,
        CoinGlassAPI.fetch_top_long_short_ratio, CoinGlassAPI.fetch_top_long_short_position_ratio,
        CoinGlassAPI.fetch_top_long_short_loser, hreq]
  · simp only [CoinGlassAPI.get_available_pairs, hreq]

/-- Claim C6 witness: an HTTP 429 response yields a raised error carrying
status 429 from both the transport and the open-interest fetch method. -/
theorem C6_http_error_propagation_witness :
    CoinGlassAPI._request
        { status := 429, reason := "Too Many Requests", body := (none : Option IndicatorPayload) } =
      (Except.error (ReqError.http 429 "Too Many Requests") : Except ReqError IndicatorPayload) ∧
    ((CoinGlassAPI.init "key").fetch_ohlc_oi_data
        (fun _ _ _ => { status := 429, reason := "Too Many Requests", body := none })
        "Binance" "BTCUSDT").1 = Except.error (ReqError.http 429 "Too Many Requests") :=
  ⟨((C6_http_error_propagation 429 "Too Many Requests" (by decide) (by decide)).1 none
      (CoinGlassAPI.init "key") "Binance" "BTCUSDT" "h24" 50).1,
   ((C6_http_error_propagation 429 "Too Many Requests" (by decide) (by decide)).1 none
      (CoinGlassAPI.init "key") "Binance" "BTCUSDT" "h24" 50).2.1⟩

/-- Claim C8: on the transport's error path the best-effort decoding of the
error body never masks or replaces the primary HTTP error: for any 4xx/5xx
status the raised error is the same whether the body decodes or not. -/
theorem C8_diagnostic_never_masks :
    ∀ (s : Nat) (reason : String) (d : RawData) (b : Option RawData),
      400 ≤ s → s < 600 →
      CoinGlassAPI._request { status := s, reason := reason, body := b } =
          (Except.error (ReqError.http s reason) : Except ReqError RawData) ∧
      CoinGlassAPI._request { status := s, reason := reason, body := (none : Option RawData) } =
        CoinGlassAPI._request { status := s, reason := reason, body := some d } := by
  intro s reason d b h4 h6
  constructor <;> simp [CoinGlassAPI._request, h4, h6]

/-- Claim C8 witness: a 500 response with an undecodable body raises the
same primary error as one with a decodable body. -/
theorem C8_diagnostic_never_masks_witness :
    CoinGlassAPI._request
        { status := 500, reason := "Internal Server Error", body := (none : Option RawData) } =
      (Except.error (ReqError.http 500 "Internal Server Error") : Except ReqError RawData) ∧
    CoinGlassAPI._request
        { status := 500, reason := "Internal Server Error", body := (none : Option RawData) } =
      CoinGlassAPI._request
        { status := 500, reason := "Internal Server Error"
          body := some ([[("t", (1 : Val))]] : RawData) } :=
  ⟨(C8_diagnostic_never_masks 500 "Internal Server Error" [[("t", 1)]] none
      (by decide) (by decide)).1,
   (C8_diagnostic_never_masks 500 "Internal Server Error" [[("t", 1)]] none
      (by decide) (by decide)).2⟩

end Stream6
